import Mathlib

/-!
Verification development for `mlens` (`src/mlens/ensemble/ensemble.py`).

Part 1 shallow-embeds the `Ensemble` class itself: its attribute dictionary,
`__init__`, `fit`, `predict` and `get_params`.  Attribute access on a Python
instance raises `AttributeError` when the attribute was never assigned; we
model the instance as a record of `Option`-valued fields, one per attribute
name that the class ever assigns or reads, |none| meaning "not assigned".
Estimator and transformer objects are opaque (an id plus a fitted flag);
collaborator calls that live outside `src/` (`preprocess_folds`,
`folded_predictions`, `fit_estimators`, `preprocess_pipes`) are supplied by an
oracle recording whether each external step succeeds or fails.

Part 2 (further below) models the fold partitioner and the out-of-fold
prediction algorithm from the specification, since `mlens.parallel` is not
under `src/`.
-/

namespace Mlens

/-- Python-level errors that the modelled fragment can surface.
`externalError` stands for an arbitrary exception escaping an external
collaborator (a transformer, learner, or the parallel engine). -/
inductive PyErr where
  | attributeError
  | notFittedError
  | invalidFoldCount
  | externalError (code : Nat)
deriving DecidableEq, Repr

deriving instance DecidableEq for Except

/-- An opaque estimator object: identity plus whether `fit` has run on it. -/
structure Est where
  id : Nat
  fitted : Bool
deriving DecidableEq, Repr

/-- An opaque transformer object. -/
structure Trans where
  id : Nat
  fitted : Bool
deriving DecidableEq, Repr

/-- `sklearn.base.clone` on an estimator: a fresh unfitted copy with the same
parameters (same id in our model, fitted flag reset). -/
def cloneEst (e : Est) : Est := { e with fitted := false }

/-- `sklearn.base.clone` on a transformer. -/
def cloneTrans (t : Trans) : Trans := { t with fitted := false }

/-- The two accepted shapes of the `base_pipelines` constructor argument
(ensemble.py lines 74-81): a flat list of named estimators, or a mapping from
case name to (named transformer list, named estimator list).  The mapping is
modelled as an association list in iteration order. -/
inductive BasePipelines where
  | flat (ests : List (String × Est))
  | cased (cs : List (String × (List (String × Trans) × List (String × Est))))
deriving DecidableEq, Repr

/-- The value stored in `self.base_estimators` / `self.base_estimators_`.
Both shapes are Python *lists* (of pairs), never predictor objects. -/
inductive BaseEstsVal where
  | flatPairs (xs : List (String × Est))
  | casedPairs (xs : List (String × List (String × Est)))
deriving DecidableEq, Repr

/-- The attribute dictionary of an `Ensemble` instance.  One field per
attribute name assigned or read anywhere in the class body; `none` means the
attribute has never been assigned, so reading it raises `AttributeError`.
`named_base_estimators`, `named_base_feature_pipelines` and
`base_feature_pipelines_` are read (get_params lines 173-181, predict line
161) but assigned by no method of the class, hence typed `Option Unit` and
never set by any modelled method. -/
structure EnsembleAttrs where
  base_pipelines : Option BasePipelines := none
  meta_estimator : Option Est := none
  named_meta_estimator : Option (List (String × Est)) := none
  named_base_pipelines : Option BasePipelines := none
  preprocess : Option (List (String × List (String × Trans))) := none
  base_estimators : Option BaseEstsVal := none
  folds : Option Nat := none
  shuffle : Option Bool := none
  as_df : Option Bool := none
  verbose : Option Nat := none
  n_jobs : Option Int := none
  meta_estimator_ : Option Est := none
  base_estimators_ : Option BaseEstsVal := none
  preprocess_ : Option (List (String × List (String × Trans))) := none
  named_base_estimators : Option Unit := none
  named_base_feature_pipelines : Option Unit := none
  base_feature_pipelines_ : Option Unit := none
deriving DecidableEq, Repr

/-- Number of occurrences of `nm` in `l`. -/
def countIn (nm : String) (l : List String) : Nat := (l.filter (fun x => x = nm)).length

/-- Modelled from the spec: the naming utilities of `mlens.ensemble._setup`
(`name_estimators`, `name_base`, `_check_names`) are not under `src/`.  Per
the spec (§6 Construction input, Scenario D), name collisions are
disambiguated by an appended numeric suffix: the k-th occurrence of a
duplicated name `nm` becomes `nm ++ "-" ++ k`. -/
def renameDup (names : List String) : List String :=
  names.enum.map fun p =>
    if 2 ≤ countIn p.2 names then
      p.2 ++ "-" ++ toString (countIn p.2 (names.take (p.1 + 1)))
    else p.2

/-- Apply `renameDup` to the name components of a named list. -/
def renamePairs {α : Type} (xs : List (String × α)) : List (String × α) :=
  (renameDup (xs.map Prod.fst)).zip (xs.map Prod.snd)

/-- Modelled from the spec: `_check_names` (mlens.ensemble._setup, not under
`src/`) validates/normalizes a named list, disambiguating duplicate names. -/
def _check_names {α : Type} (xs : List (String × α)) : List (String × α) := renamePairs xs

/-- Modelled from the spec: `name_estimators` (not under `src/`) names a list
of estimators with a given name prefix. -/
def name_estimators (es : List Est) (pre : String) : List (String × Est) :=
  es.map fun e => (pre ++ toString e.id, e)

/-- Modelled from the spec: `name_base` (not under `src/`) names the base
pipelines, disambiguating duplicate names with numeric suffixes. -/
def name_base : BasePipelines → BasePipelines
  | .flat es => .flat (renamePairs es)
  | .cased cs => .cased (cs.map fun cp => (cp.1, (renamePairs cp.2.1, renamePairs cp.2.2)))

/-- `Ensemble.__init__` (ensemble.py lines 64-87).  Returns the attribute
record as it stands when the constructor finishes or raises, together with
the outcome.  Line 84 is `self.shuffle = self.shuffle`: the right-hand side
reads the `shuffle` attribute, which no earlier line assigned, so the read
raises `AttributeError`; the supplied `shuffle` argument is never stored. -/
def initEnsemble (meta_estimator : Est) (base_pipelines : BasePipelines)
    (folds : Nat) (shuffle : Bool) (as_df : Bool) (verbose : Nat) (n_jobs : Int) :
    EnsembleAttrs × Except PyErr Unit :=
  -- lines 67-68
  let s1 : EnsembleAttrs :=
    { base_pipelines := some base_pipelines, meta_estimator := some meta_estimator }
  -- line 70
  let s2 := { s1 with named_meta_estimator := some (name_estimators [meta_estimator] "meta-") }
  -- line 71
  let s3 := { s2 with named_base_pipelines := some (name_base base_pipelines) }
  -- lines 74-81: branch on the shape of base_pipelines
  let s4 :=
    match base_pipelines with
    | .cased cs =>
        { s3 with
          preprocess :=
            some (cs.map fun (cp : String × (List (String × Trans) × List (String × Est))) =>
              (cp.1, _check_names cp.2.1)),
          base_estimators :=
            some (.casedPairs (cs.map
              fun (cp : String × (List (String × Trans) × List (String × Est))) =>
                (cp.1, _check_names cp.2.2))) }
    | .flat es =>
        { s3 with preprocess := some [], base_estimators := some (.flatPairs es) }
  -- line 83
  let s5 := { s4 with folds := some folds }
  -- line 84: self.shuffle = self.shuffle  -- reads the not-yet-assigned attribute
  match s5.shuffle with
  | none => (s5, .error .attributeError)
  | some v =>
      -- unreachable: shuffle is never assigned before line 84
      let s6 := { s5 with shuffle := some v, as_df := some as_df,
                          verbose := some verbose, n_jobs := some n_jobs }
      (s6, .ok ())

/-- Outcomes of the external collaborator calls made by `Ensemble.fit`
(ensemble.py lines 114, 119, 124, 129, 137).  These functions live in
`mlens.parallel` / the meta estimator and are not under `src/`; the oracle
records, for one particular `fit` run, whether each call succeeds and what
it returns.  `preprocess_folds` and `folded_predictions` return intermediate
data (`data`, `M`) used only by later external calls, so their payloads are
opaque here. -/
structure FitOracle where
  preprocessFoldsRes : Except PyErr Unit
  foldedPredictionsRes : Except PyErr Unit
  metaFitRes : Except PyErr Unit
  preprocessPipesRes : Except PyErr (List (String × List (String × Trans)))
  fitEstimatorsRes : Except PyErr (List (String × List (String × Est)))

/-- Modelled from the spec: `_clone_base_estimators` (mlens.ensemble._clone,
not under `src/`) instantiates a fresh unfitted copy of every estimator,
preserving the list structure ("instantiate always yields a fresh instance",
spec §9). -/
def _clone_base_estimators : BaseEstsVal → BaseEstsVal
  | .flatPairs xs => .flatPairs (xs.map fun p => (p.1, cloneEst p.2))
  | .casedPairs xs =>
      .casedPairs (xs.map fun cp => (cp.1, cp.2.map fun q => (q.1, cloneEst q.2)))

/-- Modelled from the spec: `_clone_preprocess_cases` (mlens.ensemble._clone,
not under `src/`) clones every transformer, preserving structure. -/
def _clone_preprocess_cases (ps : List (String × List (String × Trans))) :
    List (String × List (String × Trans)) :=
  ps.map fun cp => (cp.1, cp.2.map fun q => (q.1, cloneTrans q.2))

/-- `Ensemble.fit` (ensemble.py lines 89-143) as a state transformer on the
attribute record.  Python attribute assignments performed before an exception
is raised persist on the instance, so the function returns the attribute
record as it stands at the point of failure.  Attribute reads on the
instance are in source order; lines 106/114-116 read `verbose`, `folds`,
`shuffle`, `n_jobs` consecutively with no external call or assignment in
between, so they are checked as one group (any of them missing raises
`AttributeError` with the same intermediate state). -/
def fitE (s : EnsembleAttrs) (o : FitOracle) : EnsembleAttrs × Except PyErr Unit :=
  -- line 102: self.meta_estimator_ = clone(self.meta_estimator)
  match s.meta_estimator with
  | none => (s, .error .attributeError)
  | some me =>
    -- line 103: self.base_estimators_ = _clone_base_estimators(self.base_estimators)
    match s.base_estimators with
    | none => ({ s with meta_estimator_ := some (cloneEst me) }, .error .attributeError)
    | some be =>
      -- line 104: self.preprocess_ = _clone_preprocess_cases(self.preprocess)
      match s.preprocess with
      | none =>
          ({ s with meta_estimator_ := some (cloneEst me),
                    base_estimators_ := some (_clone_base_estimators be) },
           .error .attributeError)
      | some pp =>
        let s3 := { s with meta_estimator_ := some (cloneEst me),
                           base_estimators_ := some (_clone_base_estimators be),
                           preprocess_ := some (_clone_preprocess_cases pp) }
        -- lines 106, 114-116: reads of verbose, folds, shuffle, n_jobs
        if s.verbose.isNone ∨ s.folds.isNone ∨ s.shuffle.isNone ∨ s.n_jobs.isNone then
          (s3, .error .attributeError)
        else
          -- line 114: data = preprocess_folds(fresh clones of preprocess, ...)
          match o.preprocessFoldsRes with
          | .error e => (s3, .error e)
          | .ok _ =>
            -- line 119: M = folded_predictions(data, fresh clones, ..., self.as_df, ...)
            if s.as_df.isNone then (s3, .error .attributeError)
            else
              match o.foldedPredictionsRes with
              | .error e => (s3, .error e)
              | .ok _ =>
                -- line 124: self.meta_estimator_.fit(M, y)  (fits the clone in place)
                match o.metaFitRes with
                | .error e => (s3, .error e)
                | .ok _ =>
                  let s4 := { s3 with meta_estimator_ := some { id := me.id, fitted := true } }
                  -- lines 129-133: production preprocessing refit
                  match o.preprocessPipesRes with
                  | .error e => (s4, .error e)
                  | .ok pipes =>
                    let s5 := { s4 with preprocess_ := some pipes }
                    -- line 137: production base estimator refit
                    match o.fitEstimatorsRes with
                    | .error e => (s5, .error e)
                    | .ok fitted =>
                      ({ s5 with base_estimators_ := some (.casedPairs fitted) }, .ok ())

/-- `Ensemble.predict` (ensemble.py lines 145-164).  `base_estimators_`, when
assigned, always holds a Python list (of pairs); a list has no `predict`
method, so line 157 `M = self.base_estimators_.predict(X)` raises
`AttributeError` whenever the attribute is present.  When it is absent,
`M = None`; `base_feature_pipelines_` is assigned by no method of the class,
and when it were present line 162 would call the nonexistent method
`self._predict_pipeline`, again an `AttributeError`.  Finally line 164 reads
`self.meta_estimator_`. -/
def predictE (s : EnsembleAttrs) : Except PyErr Nat :=
  match s.base_estimators_ with
  | some _ => .error .attributeError
  | none =>
    match s.base_feature_pipelines_ with
    | some _ => .error .attributeError
    | none =>
      match s.meta_estimator_ with
      | none => .error .attributeError
      | some me =>
        -- meta_estimator_.predict(M) with M = None: external call; an
        -- unfitted sklearn estimator raises NotFittedError.
        if me.fitted then .ok me.id else .error .notFittedError

/-- `Ensemble.get_params` (ensemble.py lines 166-187).  With `deep=False` it
delegates to `BaseEstimator.get_params` (external reflection, modelled as
success).  With `deep=True` line 173 reads `self.named_base_estimators` and
line 178 reads `self.named_base_feature_pipelines`, in that order. -/
def get_params (s : EnsembleAttrs) (deep : Bool) : Except PyErr Unit :=
  if deep = false then .ok ()
  else
    match s.named_base_estimators with
    | none => .error .attributeError
    | some _ =>
      match s.named_base_feature_pipelines with
      | none => .error .attributeError
      | some _ => .ok ()

/-!
Part 2.  Fold partitioning and the out-of-fold prediction algorithm.

`Ensemble.fit` delegates this work to `preprocess_folds` and
`folded_predictions` from `mlens.parallel`, which is not under `src/`; the
definitions below are therefore modelled from the specification (§4.1
FoldPartitioner, §4.4 OutOfFoldPredictor).
-/

/-- Modelled from the spec (§4.1 FoldPartitioner, not under `src/`): position
where fold `f`'s holdout block starts.  The first `n % K` folds receive one
extra sample, the standard balanced k-fold split. -/
def foldStart (n K f : Nat) : Nat := f * (n / K) + min f (n % K)

/-- Modelled from the spec: size of fold `f`'s holdout block. -/
def foldSize (n K f : Nat) : Nat := n / K + (if f < n % K then 1 else 0)

/-- Modelled from the spec: with shuffle disabled, holdout sets are contiguous
blocks in input order (§4.1). -/
def holdoutList (n K f : Nat) : List Nat := List.range' (foldStart n K f) (foldSize n K f)

/-- Modelled from the spec: a fold's training partition is the complement of
its holdout block in the index range (§3 Fold). -/
def trainIdx (n K f : Nat) : List Nat :=
  (List.range n).filter fun t => ¬ t ∈ holdoutList n K f

/-- Modelled from the spec: the holdout sets over an arbitrary ordering `idx`
of the sample indices (with shuffle enabled, `idx` is a seeded random
permutation of the index range; with shuffle disabled it is the identity
ordering). -/
def foldHoldout (idx : List Nat) (K f : Nat) : List Nat :=
  (holdoutList idx.length K f).map fun p => idx.getD p 0

/-- Modelled from the spec (§4.2): a transformer-chain specification.  `fitT`
fits the chain on a list of feature rows and yields the fitted transform. -/
structure PrepSpec (α : Type) where
  fitT : List α → α → α

/-- Modelled from the spec (§4.3): a base-learner specification.  `fitL` fits
a fresh instance on feature rows and targets and yields its predict map. -/
structure LearnSpec (α β γ : Type) where
  fitL : List α → List β → α → γ

/-- Modelled from the spec (§3 PreprocessingCase / BaseLearnerSpec): a named
preprocessing case together with the named learners trained on its output. -/
structure PrepCase (α β γ : Type) where
  id : String
  prep : PrepSpec α
  learners : List (String × LearnSpec α β γ)

variable {α β γ : Type}

/-- The (case, learner) pairs, in case order then learner order: one column
of the prediction matrix per pair (§3 PredictionMatrix). -/
def pairsOf (cs : List (PrepCase α β γ)) :
    List (String × String × PrepSpec α × LearnSpec α β γ) :=
  cs.flatMap fun c => c.learners.map fun nl => (c.id, nl.1, c.prep, nl.2)

/-- Fit one (case, learner) pair on the training rows `tr`: fit the case's
preprocessing on the training partition only, fit a fresh learner on the
transformed training partition and the restricted targets, and return the
composite predict map (§4.4 steps 1-2). -/
def fitPair (X : Nat → α) (y : Nat → β) (tr : List Nat)
    (pr : String × String × PrepSpec α × LearnSpec α β γ) : α → γ :=
  fun a =>
    pr.2.2.2.fitL (tr.map fun t => pr.2.2.1.fitT (tr.map X) (X t)) (tr.map y)
      (pr.2.2.1.fitT (tr.map X) a)

/-- The ephemeral fitted models of fold `f`: one composite predictor per
(case, learner) pair, fitted on fold `f`'s training partition only. -/
def foldModels (n K : Nat) (X : Nat → α) (y : Nat → β) (cs : List (PrepCase α β γ))
    (f : Nat) : List (α → γ) :=
  (pairsOf cs).map (fitPair X y (trainIdx n K f))

/-- The row of out-of-fold predictions for holdout sample `i` of fold `f`:
each fitted model predicts on the transformed holdout sample (§4.4 step 3). -/
def oofRow (n K : Nat) (X : Nat → α) (y : Nat → β) (cs : List (PrepCase α β γ))
    (f i : Nat) : List γ :=
  (foldModels n K X y cs f).map fun m => m (X i)

/-- Process fold `f`: write the fold's predictions into the rows of `M`
indexed by the fold's holdout block (§4.4 step 3). -/
def applyFold (n K : Nat) (X : Nat → α) (y : Nat → β) (cs : List (PrepCase α β γ))
    (M : List (Option (List γ))) (f : Nat) : List (Option (List γ)) :=
  (holdoutList n K f).foldl (fun M2 i => M2.set i (some (oofRow n K X y cs f i))) M

/-- Modelled from the spec (§4.4 OutOfFoldPredictor; `mlens.parallel` is not
under `src/`): the meta-training matrix `M`, built by processing every fold
and writing each fold's holdout rows.  Rows start out unassigned. -/
def oofM (n K : Nat) (X : Nat → α) (y : Nat → β) (cs : List (PrepCase α β γ)) :
    List (Option (List γ)) :=
  (List.range K).foldl (applyFold n K X y cs) (List.replicate n (none : Option (List γ)))

/-- One unit of per-fold work, for ordering statements (§4.1, Scenario B). -/
inductive FitEvent where
  | prepFit (fold : Nat) (c : String)
  | learnerFit (fold : Nat) (nm : String)
deriving DecidableEq, Repr

/-- The fold work performed on a successful out-of-fold run, in order. -/
def foldEvents (cs : List (PrepCase α β γ)) (K : Nat) : List FitEvent :=
  (List.range K).flatMap fun f =>
    cs.flatMap fun c =>
      FitEvent.prepFit f c.id :: c.learners.map fun nl => FitEvent.learnerFit f nl.1

/-- Modelled from the spec (§4.1, §4.4): the out-of-fold run invoked by
`Ensemble.fit` validates the fold count before any fold work begins —
`K < 2` or `K > n_samples` fails with `InvalidFoldCount` and an empty work
trace — and otherwise builds `M`. -/
def outOfFoldRun (n K : Nat) (X : Nat → α) (y : Nat → β) (cs : List (PrepCase α β γ)) :
    List FitEvent × Except PyErr (List (Option (List γ))) :=
  if K < 2 ∨ n < K then ([], .error .invalidFoldCount)
  else (foldEvents cs K, .ok (oofM n K X y cs))

/-- A fresh, never-fitted attribute record: no attribute assigned. -/
def freshAttrs : EnsembleAttrs := {}

/-- A fully configured attribute record, as `__init__` would have left it had
line 84 been the intended `self.shuffle = shuffle`.  The actual constructor
always raises (see the C9 theorem), so this record is the hypothetical
starting point needed to exercise `fit` and `predict`. -/
def sampleAttrs : EnsembleAttrs :=
  { base_pipelines := some (.flat [("est", ⟨0, false⟩)]),
    meta_estimator := some ⟨100, false⟩,
    named_meta_estimator := some [("meta-100", ⟨100, false⟩)],
    named_base_pipelines := some (.flat [("est", ⟨0, false⟩)]),
    preprocess := some [],
    base_estimators := some (.flatPairs [("est", ⟨0, false⟩)]),
    folds := some 10,
    shuffle := some false,
    as_df := some false,
    verbose := some 0,
    n_jobs := some 1 }

/-- An oracle for a run whose very first external step, the per-fold
preprocessing of line 114, raises (spec Scenario C: a transformer fails). -/
def failingOracle : FitOracle :=
  { preprocessFoldsRes := .error (.externalError 7),
    foldedPredictionsRes := .ok (),
    metaFitRes := .ok (),
    preprocessPipesRes := .ok [],
    fitEstimatorsRes := .ok [] }

/-- A concrete preprocessing case with one learner, for witnessing: identity
preprocessing, and a learner predicting `(number of training rows) + input`. -/
def sampleCases : List (PrepCase Nat Nat Nat) :=
  [⟨"case-1", ⟨fun _ a => a⟩, [("est", ⟨fun xs _ a => xs.length + a⟩)]⟩]

/-- An oracle for a run in which every external step succeeds. -/
def okOracle : FitOracle :=
  { preprocessFoldsRes := .ok (),
    foldedPredictionsRes := .ok (),
    metaFitRes := .ok (),
    preprocessPipesRes := .ok [("case-1", [("tr", ⟨5, true⟩)])],
    fitEstimatorsRes := .ok [("case-1", [("est", ⟨0, true⟩)])] }

lemma foldStart_zero (n K : Nat) : foldStart n K 0 = 0 := by
  simp [foldStart]

lemma foldStart_succ (n K f : Nat) :
    foldStart n K (f + 1) = foldStart n K f + foldSize n K f := by
  unfold foldStart foldSize
  have h1 : (f + 1) * (n / K) = f * (n / K) + n / K := by ring
  rw [h1]
  rcases Nat.lt_or_ge f (n % K) with h | h
  · rw [if_pos h]; omega
  · rw [if_neg (Nat.not_lt.mpr h)]; omega

lemma foldStart_mono (n K : Nat) {f g : Nat} (h : f ≤ g) :
    foldStart n K f ≤ foldStart n K g := by
  unfold foldStart
  have h1 : f * (n / K) ≤ g * (n / K) := Nat.mul_le_mul_right _ h
  omega

lemma foldStart_last (n K : Nat) (hK : 0 < K) : foldStart n K K = n := by
  unfold foldStart
  rw [Nat.min_eq_right (Nat.le_of_lt (Nat.mod_lt n hK))]
  exact Nat.div_add_mod n K

lemma mem_holdoutList {n K f x : Nat} :
    x ∈ holdoutList n K f ↔ foldStart n K f ≤ x ∧ x < foldStart n K (f + 1) := by
  rw [holdoutList, List.mem_range'_1, foldStart_succ]

lemma holdoutList_lt {n K f x : Nat} (hf : f < K) (hx : x ∈ holdoutList n K f) : x < n := by
  have h1 := (mem_holdoutList.mp hx).2
  have h2 : foldStart n K (f + 1) ≤ foldStart n K K := foldStart_mono n K hf
  have h3 := foldStart_last n K (by omega : 0 < K)
  omega

lemma holdout_disjoint {n K f g x : Nat} (hfg : f ≠ g)
    (hxf : x ∈ holdoutList n K f) (hxg : x ∈ holdoutList n K g) : False := by
  rcases mem_holdoutList.mp hxf with ⟨hf1, hf2⟩
  rcases mem_holdoutList.mp hxg with ⟨hg1, hg2⟩
  rcases Nat.lt_or_ge f g with h | h
  · have := foldStart_mono n K (by omega : f + 1 ≤ g)
    omega
  · have hgf : g < f := Nat.lt_of_le_of_ne h (fun e => hfg e.symm)
    have := foldStart_mono n K (by omega : g + 1 ≤ f)
    omega

lemma foldStart_cover (n K : Nat) :
    ∀ m x, x < foldStart n K m →
      ∃ f, f < m ∧ foldStart n K f ≤ x ∧ x < foldStart n K (f + 1) := by
  intro m
  induction m with
  | zero => intro x hx; rw [foldStart_zero] at hx; omega
  | succ m ih =>
      intro x hx
      rcases Nat.lt_or_ge x (foldStart n K m) with h | h
      · obtain ⟨f, hf, h1, h2⟩ := ih x h
        exact ⟨f, Nat.lt_succ_of_lt hf, h1, h2⟩
      · exact ⟨m, Nat.lt_succ_self m, h, hx⟩

/-- Every sample index lies in exactly one holdout block. -/
lemma holdout_cover {n K x : Nat} (hK : 0 < K) (hx : x < n) :
    ∃ f, f < K ∧ x ∈ holdoutList n K f := by
  have h := foldStart_cover n K K x (by rw [foldStart_last n K hK]; exact hx)
  obtain ⟨f, hf, h1, h2⟩ := h
  exact ⟨f, hf, mem_holdoutList.mpr ⟨h1, h2⟩⟩

lemma foldSize_balanced (n K f g : Nat) :
    foldSize n K f ≤ foldSize n K g + 1 := by
  unfold foldSize
  rcases Nat.lt_or_ge f (n % K) with h | h
  · rw [if_pos h]; omega
  · rw [if_neg (Nat.not_lt.mpr h)]; omega

lemma length_holdoutList (n K f : Nat) : (holdoutList n K f).length = foldSize n K f := by
  simp [holdoutList]

lemma mem_trainIdx {n K f t : Nat} :
    t ∈ trainIdx n K f ↔ t < n ∧ ¬ t ∈ holdoutList n K f := by
  simp [trainIdx]

lemma foldl_set_length {δ : Type} (v : Nat → δ) :
    ∀ (l : List Nat) (M : List (Option δ)),
      (l.foldl (fun M2 j => M2.set j (some (v j))) M).length = M.length := by
  intro l
  induction l with
  | nil => intro M; rfl
  | cons j tl ih => intro M; rw [List.foldl_cons, ih]; exact List.length_set ..

lemma foldl_set_getElem? {δ : Type} (v : Nat → δ) :
    ∀ (l : List Nat) (M : List (Option δ)), (∀ j ∈ l, j < M.length) → ∀ i : Nat,
      (l.foldl (fun M2 j => M2.set j (some (v j))) M)[i]? =
        if i ∈ l then some (some (v i)) else M[i]? := by
  intro l
  induction l with
  | nil => intro M _ i; simp
  | cons j tl ih =>
      intro M hb i
      rw [List.foldl_cons]
      have hb' : ∀ x ∈ tl, x < (M.set j (some (v j))).length := by
        intro x hx; rw [List.length_set]; exact hb x (List.mem_cons_of_mem j hx)
      rw [ih (M.set j (some (v j))) hb' i]
      by_cases hitl : i ∈ tl
      · rw [if_pos hitl, if_pos (List.mem_cons_of_mem j hitl)]
      · rw [if_neg hitl]
        by_cases hij : i = j
        · subst hij
          rw [if_pos (List.mem_cons_self i tl),
            List.getElem?_set_self (hb i (List.mem_cons_self i tl))]
        · rw [List.getElem?_set_ne (fun e => hij e.symm), if_neg]
          intro hmem
          rcases List.mem_cons.mp hmem with h | h
          · exact hij h
          · exact hitl h

lemma applyFold_length (n K : Nat) (X : Nat → α) (y : Nat → β)
    (cs : List (PrepCase α β γ)) (M : List (Option (List γ))) (f : Nat) :
    (applyFold n K X y cs M f).length = M.length :=
  foldl_set_length _ _ M

lemma applyFold_getElem? (n K : Nat) (X : Nat → α) (y : Nat → β)
    (cs : List (PrepCase α β γ)) (M : List (Option (List γ))) (f : Nat)
    (hb : ∀ j ∈ holdoutList n K f, j < M.length) (i : Nat) :
    (applyFold n K X y cs M f)[i]? =
      if i ∈ holdoutList n K f then some (some (oofRow n K X y cs f i)) else M[i]? :=
  foldl_set_getElem? _ _ M hb i

lemma foldl_applyFold_untouched (n K : Nat) (X : Nat → α) (y : Nat → β)
    (cs : List (PrepCase α β γ)) :
    ∀ (fs : List Nat) (M : List (Option (List γ))) (i : Nat),
      (∀ g ∈ fs, ∀ j ∈ holdoutList n K g, j < M.length) →
      (∀ g ∈ fs, ¬ i ∈ holdoutList n K g) →
      (fs.foldl (applyFold n K X y cs) M)[i]? = M[i]? := by
  intro fs
  induction fs with
  | nil => intro M i _ _; rfl
  | cons f tl ih =>
      intro M i hb hni
      rw [List.foldl_cons]
      have hlen := applyFold_length n K X y cs M f
      have h1 : (tl.foldl (applyFold n K X y cs) (applyFold n K X y cs M f))[i]? =
          (applyFold n K X y cs M f)[i]? := by
        apply ih
        · intro g hg j hj; rw [hlen]; exact hb g (List.mem_cons_of_mem f hg) j hj
        · intro g hg; exact hni g (List.mem_cons_of_mem f hg)
      rw [h1, applyFold_getElem? n K X y cs M f (hb f (List.mem_cons_self f tl)) i,
        if_neg (hni f (List.mem_cons_self f tl))]

lemma foldl_applyFold_written (n K : Nat) (X : Nat → α) (y : Nat → β)
    (cs : List (PrepCase α β γ)) :
    ∀ (fs : List Nat) (M : List (Option (List γ))) (i f₀ : Nat),
      fs.Nodup → f₀ ∈ fs → i ∈ holdoutList n K f₀ →
      (∀ g ∈ fs, i ∈ holdoutList n K g → g = f₀) →
      (∀ g ∈ fs, ∀ j ∈ holdoutList n K g, j < M.length) →
      (fs.foldl (applyFold n K X y cs) M)[i]? = some (some (oofRow n K X y cs f₀ i)) := by
  intro fs
  induction fs with
  | nil => intro M i f₀ _ hf₀ _ _ _; exact absurd hf₀ (List.not_mem_nil f₀)
  | cons f tl ih =>
      intro M i f₀ hnd hf₀ hi huniq hb
      rw [List.foldl_cons]
      have hlen := applyFold_length n K X y cs M f
      by_cases hff : f = f₀
      · subst hff
        have hnotl : f ∉ tl := (List.nodup_cons.mp hnd).1
        have h1 : (applyFold n K X y cs M f)[i]? = some (some (oofRow n K X y cs f i)) := by
          rw [applyFold_getElem? n K X y cs M f (hb f (List.mem_cons_self f tl)) i,
            if_pos hi]
        rw [foldl_applyFold_untouched n K X y cs tl (applyFold n K X y cs M f) i
          (by intro g hg j hj; rw [hlen]; exact hb g (List.mem_cons_of_mem f hg) j hj)
          (by
            intro g hg hig
            exact hnotl ((huniq g (List.mem_cons_of_mem f hg) hig) ▸ hg)), h1]
      · have hf₀tl : f₀ ∈ tl := by
          rcases List.mem_cons.mp hf₀ with h | h
          · exact absurd h.symm hff
          · exact h
        apply ih (applyFold n K X y cs M f) i f₀ (List.nodup_cons.mp hnd).2 hf₀tl hi
        · intro g hg hig; exact huniq g (List.mem_cons_of_mem f hg) hig
        · intro g hg j hj; rw [hlen]; exact hb g (List.mem_cons_of_mem f hg) j hj

lemma oofM_length (n K : Nat) (X : Nat → α) (y : Nat → β) (cs : List (PrepCase α β γ)) :
    (oofM n K X y cs).length = n := by
  unfold oofM
  have h : ∀ (fs : List Nat) (M : List (Option (List γ))),
      (fs.foldl (applyFold n K X y cs) M).length = M.length := by
    intro fs
    induction fs with
    | nil => intro M; rfl
    | cons f tl ih => intro M; rw [List.foldl_cons, ih]; exact applyFold_length ..
  rw [h, List.length_replicate]

/-- Row `i` of the finished matrix holds exactly the predictions of the fold
whose holdout block contains `i`. -/
lemma oofM_getElem? (n K : Nat) (X : Nat → α) (y : Nat → β) (cs : List (PrepCase α β γ))
    {i : Nat} (hK : 0 < K) (hi : i < n) :
    ∃ f, f < K ∧ i ∈ holdoutList n K f ∧
      (oofM n K X y cs)[i]? = some (some (oofRow n K X y cs f i)) := by
  obtain ⟨f, hfK, hif⟩ := holdout_cover hK hi
  refine ⟨f, hfK, hif, ?_⟩
  unfold oofM
  apply foldl_applyFold_written n K X y cs (List.range K) _ i f (List.nodup_range K)
    (List.mem_range.mpr hfK) hif
  · intro g hg hig
    by_contra hne
    exact holdout_disjoint hne hig hif
  · intro g hg j hj
    rw [List.length_replicate]
    exact holdoutList_lt (List.mem_range.mp hg) hj

lemma fitPair_congr (X X' : Nat → α) (y y' : Nat → β) (tr : List Nat)
    (hX : ∀ t ∈ tr, X t = X' t) (hy : ∀ t ∈ tr, y t = y' t)
    (pr : String × String × PrepSpec α × LearnSpec α β γ) :
    fitPair X y tr pr = fitPair X' y' tr pr := by
  funext a
  unfold fitPair
  have h1 : tr.map X = tr.map X' := List.map_congr_left hX
  have h2 : tr.map y = tr.map y' := List.map_congr_left hy
  rw [h1, h2]
  have h3 : (tr.map fun t => pr.2.2.1.fitT (tr.map X') (X t)) =
      tr.map fun t => pr.2.2.1.fitT (tr.map X') (X' t) :=
    List.map_congr_left (fun t ht => by rw [hX t ht])
  rw [h3]

/-- No leakage: the ephemeral fitted models of fold `f` depend only on the
data of fold `f`'s training partition. -/
lemma foldModels_congr (n K : Nat) (X X' : Nat → α) (y y' : Nat → β)
    (cs : List (PrepCase α β γ)) (f : Nat)
    (h : ∀ t ∈ trainIdx n K f, X t = X' t ∧ y t = y' t) :
    foldModels n K X y cs f = foldModels n K X' y' cs f := by
  unfold foldModels
  exact List.map_congr_left fun pr _ =>
    fitPair_congr X X' y y' (trainIdx n K f) (fun t ht => (h t ht).1)
      (fun t ht => (h t ht).2) pr

lemma mem_foldHoldout {idx : List Nat} {K f x : Nat} :
    x ∈ foldHoldout idx K f ↔
      ∃ p, p ∈ holdoutList idx.length K f ∧ idx.getD p 0 = x := by
  simp [foldHoldout]

lemma foldHoldout_subset_range {idx : List Nat} {n K f x : Nat}
    (hperm : idx.Perm (List.range n)) (hf : f < K) (hx : x ∈ foldHoldout idx K f) :
    x < n := by
  have hlen : idx.length = n := hperm.length_eq.trans (List.length_range n)
  obtain ⟨p, hp, hpx⟩ := mem_foldHoldout.mp hx
  rw [hlen] at hp
  have hpn : p < n := holdoutList_lt hf hp
  have hplen : p < idx.length := by omega
  rw [List.getD_eq_getElem idx 0 hplen] at hpx
  have : x ∈ idx := hpx ▸ List.getElem_mem hplen
  exact List.mem_range.mp (hperm.mem_iff.mp this)

lemma foldHoldout_pairwise_disjoint {idx : List Nat} {n K f g x : Nat}
    (hperm : idx.Perm (List.range n)) (hf : f < K) (hg : g < K) (hfg : f ≠ g)
    (hxf : x ∈ foldHoldout idx K f) (hxg : x ∈ foldHoldout idx K g) : False := by
  have hlen : idx.length = n := hperm.length_eq.trans (List.length_range n)
  have hnd : idx.Nodup := hperm.nodup_iff.mpr (List.nodup_range n)
  obtain ⟨p, hp, hpx⟩ := mem_foldHoldout.mp hxf
  obtain ⟨q, hq, hqx⟩ := mem_foldHoldout.mp hxg
  rw [hlen] at hp hq
  have hpn : p < idx.length := by rw [hlen]; exact holdoutList_lt hf hp
  have hqn : q < idx.length := by rw [hlen]; exact holdoutList_lt hg hq
  rw [List.getD_eq_getElem idx 0 hpn] at hpx
  rw [List.getD_eq_getElem idx 0 hqn] at hqx
  have hpq : p = q :=
    (List.Nodup.getElem_inj_iff hnd).mp (by rw [hpx, hqx])
  subst hpq
  exact holdout_disjoint hfg hp hq

lemma foldHoldout_covers {idx : List Nat} {n K x : Nat}
    (hperm : idx.Perm (List.range n)) (hK : 0 < K) (hx : x < n) :
    ∃ f, f < K ∧ x ∈ foldHoldout idx K f := by
  have hlen : idx.length = n := hperm.length_eq.trans (List.length_range n)
  have hxidx : x ∈ idx := hperm.mem_iff.mpr (List.mem_range.mpr hx)
  obtain ⟨p, hplen, hpx⟩ := List.mem_iff_getElem.mp hxidx
  have hpn : p < n := by omega
  obtain ⟨f, hfK, hpf⟩ := holdout_cover hK hpn
  refine ⟨f, hfK, mem_foldHoldout.mpr ⟨p, by rw [hlen]; exact hpf, ?_⟩⟩
  rw [List.getD_eq_getElem idx 0 hplen, hpx]

lemma foldHoldout_length {idx : List Nat} {K f : Nat} :
    (foldHoldout idx K f).length = foldSize idx.length K f := by
  simp [foldHoldout, holdoutList]

lemma predictE_some_base {s : EnsembleAttrs} {v : BaseEstsVal}
    (h : s.base_estimators_ = some v) : predictE s = .error PyErr.attributeError := by
  unfold predictE
  rw [h]

lemma fitE_ok_base_estimators_ {s : EnsembleAttrs} {o : FitOracle}
    (h : (fitE s o).2 = .ok ()) :
    ∃ xs, ((fitE s o).1).base_estimators_ = some (BaseEstsVal.casedPairs xs) := by
  obtain ⟨bp, mest, nme, nbp, pp, bes, fo, sh, adf, vb, nj, mef, bef, ppf, nbe, nbfp, bfp⟩ := s
  obtain ⟨pfr, fpr, mfr, pps, fes⟩ := o
  unfold fitE at h ⊢
  dsimp only at h ⊢
  repeat' split at h
  all_goals try simp at h
  all_goals simp_all

/-!  The claims. -/

/-- C9: For every choice of constructor arguments, constructing an `Ensemble`
raises `AttributeError`: line 84 `self.shuffle = self.shuffle` evaluates its
right-hand side by reading the `shuffle` attribute, which no earlier line of
`__init__` ever assigned, so no `Ensemble` instance is ever successfully
created. -/
theorem init_always_raises_attribute_error
    (meta : Est) (bp : BasePipelines) (folds : Nat) (sh adf : Bool)
    (vb : Nat) (nj : Int) :
    (initEnsemble meta bp folds sh adf vb nj).2 = .error PyErr.attributeError := by
  unfold initEnsemble
  cases bp <;> rfl

/-- C4: the constructor does not store (and `fit` hence cannot honor) the
supplied shuffle flag: for every argument list with shuffle disabled,
`__init__` raises `AttributeError` at line 84 and the `shuffle` attribute is
left unassigned, so the claimed determinism contract is unrealizable. -/
theorem init_shuffle_flag_never_stored
    (meta : Est) (bp : BasePipelines) (folds : Nat) (adf : Bool)
    (vb : Nat) (nj : Int) :
    (initEnsemble meta bp folds false adf vb nj).2 = .error PyErr.attributeError ∧
      ((initEnsemble meta bp folds false adf vb nj).1).shuffle = none := by
  unfold initEnsemble
  cases bp <;> exact ⟨rfl, rfl⟩

/-- C2 counterexample: a `fit` run that fails at the first external step
(fold preprocessing, line 114) does *not* leave the instance free of partial
state: the cloned base estimators and meta estimator assigned at lines
102-104 remain observable attributes after the failure. -/
theorem fit_failure_partial_state_counterexample :
    (fitE sampleAttrs failingOracle).2 = .error (PyErr.externalError 7) ∧
    ((fitE sampleAttrs failingOracle).1).base_estimators_ ≠ none ∧
    ((fitE sampleAttrs failingOracle).1).meta_estimator_ ≠ none ∧
    ((fitE sampleAttrs failingOracle).1).preprocess_ ≠ none := by
  refine ⟨by decide, by decide, by decide, by decide⟩

/-- C2 amended: a failing `fit(X, y)` does not leave the ensemble in the
Uninitialized state; instead, for every run on an instance whose
configuration attributes are present, any failure — at fold preprocessing,
learner fitting, meta-model fitting, or production refit — leaves the three
artifact attributes assigned at lines 102-104 (`meta_estimator_`,
`base_estimators_`, `preprocess_`) observable on the instance. -/
theorem fit_failure_leaves_artifacts (s : EnsembleAttrs) (o : FitOracle) (e : PyErr)
    (h1 : s.meta_estimator.isSome = true) (h2 : s.base_estimators.isSome = true)
    (h3 : s.preprocess.isSome = true)
    (hf : (fitE s o).2 = .error e) :
    ((fitE s o).1).meta_estimator_.isSome = true ∧
    ((fitE s o).1).base_estimators_.isSome = true ∧
    ((fitE s o).1).preprocess_.isSome = true := by
  clear hf
  obtain ⟨bp, mest, nme, nbp, pp, bes, fo, sh, adf, vb, nj, mef, bef, ppf, nbe, nbfp, bfp⟩ := s
  obtain ⟨me, hme⟩ := Option.isSome_iff_exists.mp h1
  obtain ⟨be, hbe⟩ := Option.isSome_iff_exists.mp h2
  obtain ⟨ppv, hpp⟩ := Option.isSome_iff_exists.mp h3
  dsimp only at hme hbe hpp
  subst hme hbe hpp
  unfold fitE
  dsimp only
  repeat' split
  all_goals simp

/-- C2 amended, witnessed at a concrete failing run. -/
theorem fit_failure_leaves_artifacts_witness :
    (fitE sampleAttrs failingOracle).2 = .error (PyErr.externalError 7) ∧
    (((fitE sampleAttrs failingOracle).1).meta_estimator_.isSome = true ∧
     ((fitE sampleAttrs failingOracle).1).base_estimators_.isSome = true ∧
     ((fitE sampleAttrs failingOracle).1).preprocess_.isSome = true) :=
  ⟨by decide,
   fit_failure_leaves_artifacts sampleAttrs failingOracle (PyErr.externalError 7)
     (by decide) (by decide) (by decide) (by decide)⟩

/-- C3 counterexample: on a fresh instance (fit never run), `predict` raises
`AttributeError` — from reading the unset `meta_estimator_` at line 164 —
which is not `NotFittedError`. -/
theorem predict_before_fit_counterexample :
    predictE freshAttrs = .error PyErr.attributeError ∧
    predictE freshAttrs ≠ .error PyErr.notFittedError := by
  refine ⟨by decide, by decide⟩

/-- C3 amended: on every instance on which `fit` has not successfully
completed — fresh (no fitted attributes assigned) or left behind by a failed
`fit` (list-valued `base_estimators_` present) — `predict` raises
`AttributeError`, not `NotFittedError`, and returns no value. -/
theorem predict_not_ready_raises_attribute_error (s : EnsembleAttrs)
    (h : (s.base_estimators_ = none ∧ s.base_feature_pipelines_ = none ∧
            s.meta_estimator_ = none) ∨
         s.base_estimators_.isSome = true) :
    predictE s = .error PyErr.attributeError := by
  rcases h with ⟨h1, h2, h3⟩ | h1
  · unfold predictE
    rw [h1, h2, h3]
  · obtain ⟨v, hv⟩ := Option.isSome_iff_exists.mp h1
    exact predictE_some_base hv

/-- C3 amended, witnessed on the fresh instance. -/
theorem predict_not_ready_raises_attribute_error_witness :
    (freshAttrs.base_estimators_ = none ∧ freshAttrs.base_feature_pipelines_ = none ∧
       freshAttrs.meta_estimator_ = none) ∧
    predictE freshAttrs = .error PyErr.attributeError :=
  ⟨by decide,
   predict_not_ready_raises_attribute_error freshAttrs (Or.inl (by decide))⟩

/-- C7: after every fully successful `fit`, `predict` raises
`AttributeError` at line 157: `base_estimators_` holds the list returned by
`fit_estimators`, and a list has no `predict` method.  No `M_test` is ever
built, so the fit-time column order is never replayed. -/
theorem predict_after_successful_fit_raises (s : EnsembleAttrs) (o : FitOracle)
    (h : (fitE s o).2 = .ok ()) :
    predictE ((fitE s o).1) = .error PyErr.attributeError := by
  obtain ⟨xs, hxs⟩ := fitE_ok_base_estimators_ h
  exact predictE_some_base hxs

/-- C7, witnessed at a concrete fully successful run. -/
theorem predict_after_successful_fit_raises_witness :
    (fitE sampleAttrs okOracle).2 = .ok () ∧
    predictE ((fitE sampleAttrs okOracle).1) = .error PyErr.attributeError :=
  ⟨by decide, predict_after_successful_fit_raises sampleAttrs okOracle (by decide)⟩

/-- C10: `get_params(deep=True)` raises `AttributeError` on every instance
whose `named_base_estimators` attribute is absent — and it is absent on every
instance the class can produce, since neither `__init__` (which assigns
`named_base_pipelines` instead) nor `fit` ever assigns it. -/
theorem get_params_deep_raises_attribute_error :
    (∀ (meta : Est) (bp : BasePipelines) (folds : Nat) (sh adf : Bool)
        (vb : Nat) (nj : Int),
       ((initEnsemble meta bp folds sh adf vb nj).1).named_base_estimators = none) ∧
    (∀ (s : EnsembleAttrs) (o : FitOracle),
       ((fitE s o).1).named_base_estimators = s.named_base_estimators) ∧
    (∀ s : EnsembleAttrs, s.named_base_estimators = none →
       get_params s true = .error PyErr.attributeError) := by
  refine ⟨?_, ?_, ?_⟩
  · intro meta bp folds sh adf vb nj
    unfold initEnsemble
    cases bp <;> rfl
  · intro s o
    obtain ⟨bp, mest, nme, nbp, pp, bes, fo, sh, adf, vb, nj, mef, bef, ppf, nbe, nbfp, bfp⟩ := s
    unfold fitE
    dsimp only
    repeat' split
    all_goals rfl
  · intro s h
    unfold get_params
    rw [if_neg (by simp), h]

/-- C10, witnessed on the fresh instance. -/
theorem get_params_deep_raises_attribute_error_witness :
    freshAttrs.named_base_estimators = none ∧
    get_params freshAttrs true = .error PyErr.attributeError :=
  ⟨rfl, get_params_deep_raises_attribute_error.2.2 freshAttrs rfl⟩

/-- C8: two base learner specifications sharing a name are renamed with an
appended numeric suffix (`nm-1`, `nm-2`) by `name_base` at line 71 of the
constructor, before any fitting takes place (the constructor performs no
fitting, and stores the estimator objects themselves unchanged); the
resulting names are distinct. -/
theorem duplicate_names_get_numeric_suffix (nm : String) (e1 e2 : Est)
    (meta : Est) (folds : Nat) (sh adf : Bool) (vb : Nat) (nj : Int) :
    ((initEnsemble meta (.flat [(nm, e1), (nm, e2)]) folds sh adf vb nj).1).named_base_pipelines
      = some (.flat [(nm ++ "-" ++ toString 1, e1), (nm ++ "-" ++ toString 2, e2)]) ∧
    nm ++ "-" ++ toString 1 ≠ nm ++ "-" ++ toString 2 := by
  constructor
  · show some (name_base (.flat [(nm, e1), (nm, e2)])) = _
    unfold name_base
    simp [renamePairs, renameDup, countIn, List.enum, List.filter]
  · intro h
    have h2 := congrArg String.data h
    simp only [String.data_append] at h2
    have h3 := List.append_cancel_left h2
    exact absurd h3 (by decide)

/-- C5: for every `n_samples` and fold count `K` with `2 ≤ K ≤ n_samples`,
and every ordering `idx` of the sample indices (identity when shuffle is
disabled, a seeded permutation when enabled), the `K` holdout index sets are
pairwise disjoint, their union is the full index range `0..n_samples-1`, and
their sizes differ by at most one. -/
theorem foldPartitioner_holdouts_partition (n K : Nat) (idx : List Nat)
    (hperm : idx.Perm (List.range n)) (hK2 : 2 ≤ K) (hKn : K ≤ n) :
    (∀ f g, f < K → g < K → f ≠ g →
       ∀ x, x ∈ foldHoldout idx K f → ¬ x ∈ foldHoldout idx K g) ∧
    (∀ x, x < n ↔ ∃ f, f < K ∧ x ∈ foldHoldout idx K f) ∧
    (∀ f g, f < K → g < K →
       (foldHoldout idx K f).length ≤ (foldHoldout idx K g).length + 1) := by
  refine ⟨?_, ?_, ?_⟩
  · intro f g hf hg hfg x hxf hxg
    exact foldHoldout_pairwise_disjoint hperm hf hg hfg hxf hxg
  · intro x
    constructor
    · exact fun hx => foldHoldout_covers hperm (by omega) hx
    · rintro ⟨f, hf, hx⟩
      exact foldHoldout_subset_range hperm hf hx
  · intro f g hf hg
    rw [foldHoldout_length, foldHoldout_length]
    exact foldSize_balanced ..

/-- C5, witnessed on a shuffled ordering of 5 samples with K = 2. -/
theorem foldPartitioner_holdouts_partition_witness :
    List.Perm [3, 0, 4, 1, 2] (List.range 5) ∧ 2 ≤ 2 ∧ 2 ≤ 5 ∧
    ((∀ f g, f < 2 → g < 2 → f ≠ g →
        ∀ x, x ∈ foldHoldout [3, 0, 4, 1, 2] 2 f → ¬ x ∈ foldHoldout [3, 0, 4, 1, 2] 2 g) ∧
     (∀ x, x < 5 ↔ ∃ f, f < 2 ∧ x ∈ foldHoldout [3, 0, 4, 1, 2] 2 f) ∧
     (∀ f g, f < 2 → g < 2 →
        (foldHoldout [3, 0, 4, 1, 2] 2 f).length ≤ (foldHoldout [3, 0, 4, 1, 2] 2 g).length + 1)) :=
  ⟨by decide, by decide, by decide,
   foldPartitioner_holdouts_partition 5 2 [3, 0, 4, 1, 2] (by decide) (by decide) (by decide)⟩

/-- C6: with `K < 2` or `K > n_samples`, the out-of-fold run invoked by `fit`
fails with `InvalidFoldCount` and an empty work trace: no fold work
(preprocessing fit or learner fit) has begun. -/
theorem fit_invalid_fold_count (n K : Nat) (X : Nat → α) (y : Nat → β)
    (cs : List (PrepCase α β γ)) (h : K < 2 ∨ n < K) :
    outOfFoldRun n K X y cs = ([], .error PyErr.invalidFoldCount) := by
  unfold outOfFoldRun
  rw [if_pos h]

/-- C6, witnessed at K = 1 on 5 samples. -/
theorem fit_invalid_fold_count_witness :
    ((1 : Nat) < 2 ∨ (5 : Nat) < 1) ∧
    outOfFoldRun 5 1 (fun t => t) (fun t => t) ([] : List (PrepCase Nat Nat Nat)) =
      ([], .error PyErr.invalidFoldCount) :=
  ⟨by decide, fit_invalid_fold_count 5 1 _ _ _ (by decide)⟩

/-- C1: for every fit with `K` folds (`2 ≤ K ≤ n`), the meta-training matrix
has `n` rows; every row `i` was written exactly by the fold `f` holding `i`
out, holds one entry per (case, learner) pair, and each entry is the
prediction, on sample `i`, of a model fitted (after preprocessing fitted on
fold `f`'s training partition only) on training data excluding `i`: sample
`i` is not in fold `f`'s training partition, and the fitted models for row
`i` are unchanged under any modification of sample `i`'s data. -/
theorem oof_matrix_no_leakage (n K : Nat) (X : Nat → α) (y : Nat → β)
    (cs : List (PrepCase α β γ)) (hK2 : 2 ≤ K) (hKn : K ≤ n) :
    (oofM n K X y cs).length = n ∧
    ∀ i, i < n →
      ∃ f, f < K ∧ i ∈ holdoutList n K f ∧ ¬ i ∈ trainIdx n K f ∧
        (oofM n K X y cs)[i]? =
          some (some ((foldModels n K X y cs f).map fun m => m (X i))) ∧
        ((foldModels n K X y cs f).map fun m => m (X i)).length = (pairsOf cs).length ∧
        ∀ (X' : Nat → α) (y' : Nat → β),
          (∀ t, t ≠ i → X t = X' t ∧ y t = y' t) →
          foldModels n K X y cs f = foldModels n K X' y' cs f := by
  refine ⟨oofM_length n K X y cs, ?_⟩
  intro i hi
  obtain ⟨f, hfK, hif, hrow⟩ := oofM_getElem? n K X y cs (by omega) hi
  refine ⟨f, hfK, hif, ?_, hrow, ?_, ?_⟩
  · intro hmem
    exact (mem_trainIdx.mp hmem).2 hif
  · rw [List.length_map]
    unfold foldModels
    exact List.length_map ..
  · intro X' y' hagree
    apply foldModels_congr
    intro t ht
    apply hagree
    intro he
    exact (mem_trainIdx.mp ht).2 (he ▸ hif)

/-- C1, witnessed at n = 4, K = 2, one preprocessing case with one learner. -/
theorem oof_matrix_no_leakage_witness :
    2 ≤ 2 ∧ 2 ≤ 4 ∧
    ((oofM 4 2 (fun t => t) (fun t => t + 10) sampleCases).length = 4 ∧
     ∀ i, i < 4 →
       ∃ f, f < 2 ∧ i ∈ holdoutList 4 2 f ∧ ¬ i ∈ trainIdx 4 2 f ∧
         (oofM 4 2 (fun t => t) (fun t => t + 10) sampleCases)[i]? =
           some (some ((foldModels 4 2 (fun t => t) (fun t => t + 10) sampleCases f).map
             fun m => m i)) ∧
         ((foldModels 4 2 (fun t => t) (fun t => t + 10) sampleCases f).map
           fun m => m i).length = (pairsOf sampleCases).length ∧
         ∀ (X' : Nat → Nat) (y' : Nat → Nat),
           (∀ t, t ≠ i → t = X' t ∧ t + 10 = y' t) →
           foldModels 4 2 (fun t => t) (fun t => t + 10) sampleCases f =
             foldModels 4 2 X' y' sampleCases f) :=
  ⟨by decide, by decide,
   oof_matrix_no_leakage 4 2 (fun t => t) (fun t => t + 10) sampleCases
     (by decide) (by decide)⟩

end Mlens
